import Mathlib

/-!
Verification of the warp-classification core of
`export_scripts/classify_warps.py`.

The script classifies every warp of the game world as `door` (immediate)
or `carpet` (directional) and, for carpet warps, infers the required
approach direction.  The database accesses of `main` are modelled as
abstract providers (`blocksets`, `map_info`, `warp_events`); everything
else is translated directly from the Python source.
-/

namespace ClassifyWarps

/-- Compass directions, the possible results of direction inference. -/
inductive Direction where
  | UP
  | DOWN
  | LEFT
  | RIGHT
deriving DecidableEq, Repr

/-- `warp_type` of a classification result. -/
inductive WarpType where
  | door
  | carpet
deriving DecidableEq, Repr

/-- `dir_method`: which inference strategy produced the direction. -/
inductive DirMethod where
  | dest_warp
  | edge
deriving DecidableEq, Repr

/-- Per-warp classification result `{warp_type, direction, dir_method}`. -/
structure ClassificationResult where
  warp_type : WarpType
  direction : Option Direction
  dir_method : Option DirMethod
deriving DecidableEq, Repr

/-- `DOOR_TILE_IDS`: per-tileset 8x8 tile ids at the player's feet that
count as door tiles.  A tileset absent from the Python dict yields `[]`
(the dict is read with `.get(tileset_id, [])`). -/
def DOOR_TILE_IDS : Nat → List Nat
  | 0 => [0x1B, 0x58]
  | 3 => [0x3A]
  | 2 => [0x5E]
  | 8 => [0x54]
  | 9 => [0x3B]
  | 10 => [0x3B]
  | 12 => [0x3B]
  | 13 => [0x1E]
  | 18 => [0x1C, 0x38, 0x1A]
  | 19 => [0x1A, 0x1C, 0x53]
  | 20 => [0x34]
  | 22 => [0x43, 0x58, 0x1B]
  | 23 => [0x3B, 0x1B]
  | _ => []

/-- `WARP_TILE_IDS`: additional per-tileset warp tiles that also trigger
immediate warps; absent tilesets yield `[]`. -/
def WARP_TILE_IDS : Nat → List Nat
  | 0 => [0x1B, 0x58]
  | 1 => [0x3B, 0x1A, 0x1C]
  | 2 => [0x5E]
  | 3 => [0x5A, 0x5C, 0x3A]
  | 4 => [0x3B, 0x1A, 0x1C]
  | 5 => [0x4A]
  | 6 => [0x5E]
  | 7 => [0x4A]
  | 8 => [0x54, 0x5C, 0x32]
  | 9 => [0x3B, 0x1A, 0x1C]
  | 10 => [0x3B, 0x1A, 0x1C]
  | 11 => [0x13]
  | 12 => [0x3B, 0x1A, 0x1C]
  | 13 => [0x37, 0x39, 0x1E, 0x4A]
  | 14 => []
  | 15 => [0x1B, 0x13]
  | 16 => [0x15, 0x55, 0x04]
  | 17 => [0x18, 0x1A, 0x22]
  | 18 => [0x1A, 0x1C, 0x38]
  | 19 => [0x1A, 0x1C, 0x53]
  | 20 => [0x34]
  | 21 => []
  | 22 => [0x43, 0x58, 0x20, 0x1B, 0x13]
  | 23 => [0x1B, 0x3B]
  | _ => []

/-- `TILESET_REMAP`: tileset remapping for blockset graphics lookup;
`none` for tilesets not in the remap dict. -/
def TILESET_REMAP : Nat → Option Nat
  | 5 => some 7
  | 2 => some 6
  | 10 => some 12
  | 9 => some 12
  | 4 => some 1
  | _ => none

/-- `TILESET_REMAP.get(tileset_id, tileset_id)`: the tileset id used for
the blockset lookup (identity for tilesets outside the remap dict). -/
def lookup_tileset (tileset_id : Nat) : Nat :=
  (TILESET_REMAP tileset_id).getD tileset_id

/-- The `feet_indices` dict of `get_feet_tile_id`:
quadrant position -> bottom-left sub-tile index of that quadrant. -/
def feet_indices : Int → Option Nat
  | 0 => some 4
  | 1 => some 6
  | 2 => some 12
  | 3 => some 14
  | _ => none

/-- `get_feet_tile_id(block_data, position)`: the 8x8 tile id at the
player's feet; `none` when the index is not below the block length. -/
def get_feet_tile_id (block_data : List Nat) (position : Int) : Option Nat :=
  match feet_indices position with
  | some idx => if idx < block_data.length then block_data.get? idx else none
  | none => none

/-- `is_door_or_warp_tile(feet_tile_id, tileset_id)`: door tile or warp
tile membership, against the given (original) tileset id. -/
def is_door_or_warp_tile (feet_tile_id tileset_id : Nat) : Bool :=
  if feet_tile_id ∈ DOOR_TILE_IDS tileset_id then true
  else if feet_tile_id ∈ WARP_TILE_IDS tileset_id then true
  else false

/-- `infer_carpet_direction_from_edge(x, y, map_width_tiles,
map_height_tiles)`: fallback strategy, direct mapping from the warp's own
position relative to its own map's edges. -/
def infer_carpet_direction_from_edge (x y map_width_tiles map_height_tiles : Int) :
    Direction :=
  let at_top := y ≤ 0
  let at_bottom := y ≥ map_height_tiles - 1
  let at_left := x ≤ 0
  let at_right := x ≥ map_width_tiles - 1
  if at_top then Direction.UP
  else if at_bottom then Direction.DOWN
  else if at_left then Direction.LEFT
  else if at_right then Direction.RIGHT
  else
    let dist_top := y
    let dist_bottom := (map_height_tiles - 1) - y
    let dist_left := x
    let dist_right := (map_width_tiles - 1) - x
    let min_dist := min (min (min dist_top dist_bottom) dist_left) dist_right
    if min_dist = dist_top then Direction.UP
    else if min_dist = dist_bottom then Direction.DOWN
    else if min_dist = dist_left then Direction.LEFT
    else Direction.RIGHT

/-- `infer_carpet_direction_from_dest(dest_warp_x, dest_warp_y,
dest_map_width, dest_map_height)`: primary strategy, direction OPPOSITE
to the edge the destination warp is closest to. -/
def infer_carpet_direction_from_dest (dest_warp_x dest_warp_y dest_map_width
    dest_map_height : Int) : Direction :=
  let dist_top := dest_warp_y
  let dist_bottom := (dest_map_height - 1) - dest_warp_y
  let dist_left := dest_warp_x
  let dist_right := (dest_map_width - 1) - dest_warp_x
  let min_dist := min (min (min dist_top dist_bottom) dist_left) dist_right
  if min_dist = dist_top then Direction.DOWN
  else if min_dist = dist_bottom then Direction.UP
  else if min_dist = dist_left then Direction.RIGHT
  else Direction.LEFT

/-- One row of the warp query in `main`: position in sub-tile units,
destination map name and 1-based destination warp ordinal, tileset and
block of the containing 2x2 block, and the source map's dimensions in
blocks. -/
structure WarpRecord where
  x : Int
  y : Int
  dest_map : String
  dest_warp_index : Int
  tileset_id : Nat
  block_index : Nat
  map_width : Int
  map_height : Int
deriving Repr

/-- The quadrant position within the 2x2 block,
`position = (x % 2) + 2 * (y % 2)` from `main`. -/
def quadrant_position (x y : Int) : Int :=
  x % 2 + 2 * (y % 2)

/-- The primary (dest_warp) branch of `main`: resolve the destination map
via `get_map_info` (modelled by `map_info`, returning
`(map_id, width * 2, height * 2)`), fetch its warp list via
`get_warp_events` (modelled by `warp_events`), check
`1 <= dest_warp_index <= len(dest_warps)`, and infer the direction from
the destination warp's position.  `none` when the strategy fails. -/
def primary_direction (map_info : String → Option (Int × Int × Int))
    (warp_events : Int → List (Int × Int))
    (dest_map : String) (dest_warp_index : Int) : Option Direction :=
  match map_info dest_map with
  | none => none
  | some (dest_map_id, dest_mw, dest_mh) =>
    let dest_warps := warp_events dest_map_id
    if 1 ≤ dest_warp_index ∧ dest_warp_index ≤ (dest_warps.length : Int) then
      match dest_warps.get? (dest_warp_index - 1).toNat with
      | some p => some (infer_carpet_direction_from_dest p.1 p.2 dest_mw dest_mh)
      | none => none
    else none

/-- The per-warp body of `main`'s loop: block lookup through the remapped
tileset, feet-tile resolution, door/warp-tile classification against the
original tileset, and direction inference for carpet warps.  `none` means
the warp is skipped with a warning (missing block data or failed feet-tile
resolution). -/
def classify_warp (blocksets : Nat → Nat → Option (List Nat))
    (map_info : String → Option (Int × Int × Int))
    (warp_events : Int → List (Int × Int))
    (w : WarpRecord) : Option ClassificationResult :=
  let position := quadrant_position w.x w.y
  match blocksets (lookup_tileset w.tileset_id) w.block_index with
  | none => none
  | some block_data =>
    match get_feet_tile_id block_data position with
    | none => none
    | some feet_tile_id =>
      if is_door_or_warp_tile feet_tile_id w.tileset_id then
        some ⟨WarpType.door, none, none⟩
      else
        match primary_direction map_info warp_events w.dest_map w.dest_warp_index with
        | some d => some ⟨WarpType.carpet, some d, some DirMethod.dest_warp⟩
        | none =>
          some ⟨WarpType.carpet,
            some (infer_carpet_direction_from_edge w.x w.y
              (w.map_width * 2) (w.map_height * 2)),
            some DirMethod.edge⟩

/-! ## Spec-side edge model

The spec describes both direction strategies in terms of the nearest map
edge (distances `top = y`, `bottom = (h-1)-y`, `left = x`,
`right = (w-1)-x`, ties resolved in the fixed priority order top, bottom,
left, right) followed by an edge-to-direction mapping.  The following
definitions formalise that description so it can be compared with the
code's functions. -/

/-- A map edge. -/
inductive Edge where
  | top
  | bottom
  | left
  | right
deriving DecidableEq, Repr

/-- Distance of position `(x, y)` to an edge of a `w × h`-tile map,
as the spec defines it. -/
def edge_dist (e : Edge) (x y w h : Int) : Int :=
  match e with
  | Edge.top => y
  | Edge.bottom => (h - 1) - y
  | Edge.left => x
  | Edge.right => (w - 1) - x

/-- The fixed priority order top, bottom, left, right. -/
def edge_priority (e : Edge) : Nat :=
  match e with
  | Edge.top => 0
  | Edge.bottom => 1
  | Edge.left => 2
  | Edge.right => 3

/-- The minimum of the four edge distances. -/
def min_edge_dist (x y w h : Int) : Int :=
  min (min (min (edge_dist Edge.top x y w h) (edge_dist Edge.bottom x y w h))
    (edge_dist Edge.left x y w h)) (edge_dist Edge.right x y w h)

/-- The nearest edge per the spec: the first edge in priority order top,
bottom, left, right whose distance equals the minimum. -/
def nearest_edge (x y w h : Int) : Edge :=
  let m := min_edge_dist x y w h
  if m = edge_dist Edge.top x y w h then Edge.top
  else if m = edge_dist Edge.bottom x y w h then Edge.bottom
  else if m = edge_dist Edge.left x y w h then Edge.left
  else Edge.right

/-- The spec's inverted mapping for the primary strategy:
`top→DOWN, bottom→UP, left→RIGHT, right→LEFT`. -/
def opposite_direction (e : Edge) : Direction :=
  match e with
  | Edge.top => Direction.DOWN
  | Edge.bottom => Direction.UP
  | Edge.left => Direction.RIGHT
  | Edge.right => Direction.LEFT

/-- The spec's direct mapping for the fallback strategy:
`top→UP, bottom→DOWN, left→LEFT, right→RIGHT`. -/
def direct_direction (e : Edge) : Direction :=
  match e with
  | Edge.top => Direction.UP
  | Edge.bottom => Direction.DOWN
  | Edge.left => Direction.LEFT
  | Edge.right => Direction.RIGHT

/-- Helper: the primary strategy's arithmetic agrees with
`opposite_direction` of the spec's nearest edge. -/
theorem dest_eq_opposite_nearest (dwx dwy dmw dmh : Int) :
    infer_carpet_direction_from_dest dwx dwy dmw dmh =
      opposite_direction (nearest_edge dwx dwy dmw dmh) := by
  simp only [infer_carpet_direction_from_dest, nearest_edge, min_edge_dist, edge_dist]
  split_ifs <;> rfl

/-- Helper: the fallback strategy is the hard edge checks followed by
`direct_direction` of the spec's nearest edge. -/
theorem edge_eq_hard_then_direct (x y mw mh : Int) :
    infer_carpet_direction_from_edge x y mw mh =
      (if y ≤ 0 then Direction.UP
       else if y ≥ mh - 1 then Direction.DOWN
       else if x ≤ 0 then Direction.LEFT
       else if x ≥ mw - 1 then Direction.RIGHT
       else direct_direction (nearest_edge x y mw mh)) := by
  simp only [infer_carpet_direction_from_edge, nearest_edge, min_edge_dist, edge_dist]
  split_ifs <;> rfl

/-! ## Concrete scenarios used by individual claims -/

/-- A 16-cell block whose every tile id is `0x05` (not a door or warp
tile in any tileset). -/
def plain_block : List Nat :=
  [5, 5, 5, 5, 5, 5, 5, 5, 5, 5, 5, 5, 5, 5, 5, 5]

/-- Block provider that answers every query with `plain_block`. -/
def c2_blocksets : Nat → Nat → Option (List Nat) := fun _ _ => some plain_block

/-- Map-info provider resolving one destination map of 20×18 tiles. -/
def c2_map_info : String → Option (Int × Int × Int) := fun n =>
  if n = "DEST_MAP" then some (7, 20, 18) else none

/-- Warp-events provider: the destination map has one warp, at (0, 3). -/
def c2_warp_events : Int → List (Int × Int) := fun i =>
  if i = 7 then [(0, 3)] else []

/-- A warp whose destination resolves to the warp at (0, 3) above. -/
def c2_warp : WarpRecord :=
  ⟨4, 4, "DEST_MAP", 1, 0, 0, 5, 5⟩

/-- C2: the primary (dest_warp) strategy returns the direction opposite
to the nearest edge of the destination warp (distances `top = dwy`,
`bottom = (dmh-1)-dwy`, `left = dwx`, `right = (dmw-1)-dwx`, mapping
top→DOWN, bottom→UP, left→RIGHT, right→LEFT); for a destination warp at
(0, 3) on a 20×18-tile map the result is RIGHT with method dest_warp. -/
theorem primary_opposite_of_nearest_edge :
    (∀ dwx dwy dmw dmh : Int,
      infer_carpet_direction_from_dest dwx dwy dmw dmh =
        opposite_direction (nearest_edge dwx dwy dmw dmh)) ∧
    infer_carpet_direction_from_dest 0 3 20 18 = Direction.RIGHT ∧
    classify_warp c2_blocksets c2_map_info c2_warp_events c2_warp =
      some ⟨WarpType.carpet, some Direction.RIGHT, some DirMethod.dest_warp⟩ :=
  ⟨dest_eq_opposite_nearest, by decide, by decide⟩

/-- Block provider for the C3 scenario: every block is `plain_block`. -/
def c3_blocksets : Nat → Nat → Option (List Nat) := fun _ _ => some plain_block

/-- Map-info provider that resolves no destination map. -/
def c3_map_info : String → Option (Int × Int × Int) := fun _ => none

/-- Warp-events provider with no warps on any map. -/
def c3_warp_events : Int → List (Int × Int) := fun _ => []

/-- A warp at (0, 5) on a 5×9-block (10×18-tile) map with an
unresolvable destination. -/
def c3_warp : WarpRecord :=
  ⟨0, 5, "LAST_MAP", 0, 0, 0, 5, 9⟩

/-- C3: the fallback (edge) strategy first tests hard edge membership in
the order top (y≤0), bottom (y≥mh-1), left (x≤0), right (x≥mw-1), the
first true test mapping directly to UP, DOWN, LEFT, RIGHT; otherwise it
maps the closest edge directly; a warp at (0, 5) on a 10×18-tile map
yields LEFT with method edge. -/
theorem fallback_hard_edges_then_direct :
    (∀ x y mw mh : Int,
      infer_carpet_direction_from_edge x y mw mh =
        (if y ≤ 0 then Direction.UP
         else if y ≥ mh - 1 then Direction.DOWN
         else if x ≤ 0 then Direction.LEFT
         else if x ≥ mw - 1 then Direction.RIGHT
         else direct_direction (nearest_edge x y mw mh))) ∧
    infer_carpet_direction_from_edge 0 5 10 18 = Direction.LEFT ∧
    classify_warp c3_blocksets c3_map_info c3_warp_events c3_warp =
      some ⟨WarpType.carpet, some Direction.LEFT, some DirMethod.edge⟩ :=
  ⟨edge_eq_hard_then_direct, by decide, by decide⟩

/-- Helper: `nearest_edge` achieves the minimal distance and is the
earliest such edge in the priority order top, bottom, left, right. -/
theorem nearest_edge_spec (x y w h : Int) :
    edge_dist (nearest_edge x y w h) x y w h = min_edge_dist x y w h ∧
    ∀ e : Edge, edge_priority e < edge_priority (nearest_edge x y w h) →
      edge_dist e x y w h ≠ min_edge_dist x y w h := by
  simp only [nearest_edge]
  split_ifs with ht hb hl
  · refine ⟨ht.symm, ?_⟩
    intro e he h
    cases e <;> simp [edge_priority] at he
  · refine ⟨hb.symm, ?_⟩
    intro e he h
    cases e
    · exact ht h.symm
    · simp [edge_priority] at he
    · simp [edge_priority] at he
    · simp [edge_priority] at he
  · refine ⟨hl.symm, ?_⟩
    intro e he h
    cases e
    · exact ht h.symm
    · exact hb h.symm
    · simp [edge_priority] at he
    · simp [edge_priority] at he
  · refine ⟨?_, ?_⟩
    · simp only [min_edge_dist, edge_dist] at ht hb hl ⊢
      omega
    · intro e he h
      cases e
      · exact ht h.symm
      · exact hb h.symm
      · exact hl h.symm
      · simp [edge_priority] at he

/-- C4: when two or more edge distances are equal to the minimum, both
strategies resolve the tie in favour of the earlier edge in the priority
order top, bottom, left, right — the winning edge `nearest_edge` attains
the minimum, no earlier edge does, the primary strategy returns its
opposite direction, and (away from hard edges) the fallback returns its
direct direction. -/
theorem tie_break_priority (x y mw mh : Int) (e1 e2 : Edge) (hne : e1 ≠ e2)
    (h1 : edge_dist e1 x y mw mh = min_edge_dist x y mw mh)
    (h2 : edge_dist e2 x y mw mh = min_edge_dist x y mw mh) :
    (edge_dist (nearest_edge x y mw mh) x y mw mh = min_edge_dist x y mw mh ∧
      ∀ e : Edge, edge_priority e < edge_priority (nearest_edge x y mw mh) →
        edge_dist e x y mw mh ≠ min_edge_dist x y mw mh) ∧
    infer_carpet_direction_from_dest x y mw mh =
      opposite_direction (nearest_edge x y mw mh) ∧
    (¬ y ≤ 0 → ¬ y ≥ mh - 1 → ¬ x ≤ 0 → ¬ x ≥ mw - 1 →
      infer_carpet_direction_from_edge x y mw mh =
        direct_direction (nearest_edge x y mw mh)) := by
  refine ⟨nearest_edge_spec x y mw mh, dest_eq_opposite_nearest x y mw mh, ?_⟩
  intro ht hb hl hr
  rw [edge_eq_hard_then_direct, if_neg ht, if_neg hb, if_neg hl, if_neg hr]

/-- Witness for C4: at (2, 2) on a 10×10-tile map the top and left
distances tie at the minimum, and the primary strategy resolves in favour
of top. -/
theorem tie_break_priority_witness :
    Edge.top ≠ Edge.left ∧
    edge_dist Edge.top 2 2 10 10 = min_edge_dist 2 2 10 10 ∧
    edge_dist Edge.left 2 2 10 10 = min_edge_dist 2 2 10 10 ∧
    infer_carpet_direction_from_dest 2 2 10 10 =
      opposite_direction (nearest_edge 2 2 10 10) :=
  ⟨by decide, by decide, by decide,
    (tie_break_priority 2 2 10 10 Edge.top Edge.left (by decide) (by decide)
      (by decide)).2.1⟩

/-- C10: for in-bounds positions the four hard edge-membership checks of
the fallback strategy never change the outcome — the result equals the
interior minimum-distance computation alone. -/
theorem fallback_hard_checks_redundant (x y mw mh : Int)
    (hx0 : 0 ≤ x) (hxw : x < mw) (hy0 : 0 ≤ y) (hyh : y < mh)
    (hw : 1 ≤ mw) (hh : 1 ≤ mh) :
    infer_carpet_direction_from_edge x y mw mh =
      direct_direction (nearest_edge x y mw mh) := by
  simp only [infer_carpet_direction_from_edge, nearest_edge, min_edge_dist,
    edge_dist]
  split_ifs <;> first | rfl | (exfalso; omega)

/-- Witness for C10: a concrete in-bounds position. -/
theorem fallback_hard_checks_redundant_witness :
    ((0 : Int) ≤ 3 ∧ (3 : Int) < 10 ∧ (0 : Int) ≤ 4 ∧ (4 : Int) < 10 ∧
      (1 : Int) ≤ 10) ∧
    infer_carpet_direction_from_edge 3 4 10 10 =
      direct_direction (nearest_edge 3 4 10 10) :=
  ⟨by decide,
    fallback_hard_checks_redundant 3 4 10 10 (by decide) (by decide) (by decide)
      (by decide) (by decide) (by decide)⟩

/-- Helper: `is_door_or_warp_tile` is union membership over the two rule
tables. -/
theorem is_door_or_warp_tile_iff (ft t : Nat) :
    is_door_or_warp_tile ft t = true ↔
      ft ∈ DOOR_TILE_IDS t ∨ ft ∈ WARP_TILE_IDS t := by
  unfold is_door_or_warp_tile
  split_ifs with h1 h2
  · simp [h1]
  · simp [h2]
  · simp [h1, h2]

/-- C1: a warp whose resolved feet tile id lies in
`door_tiles[tileset] ∪ warp_tiles[tileset]` (original tileset id) is
classified `{door, null, null}` regardless of the destination-map
providers; direction inference never runs. -/
theorem door_precedence
    (blocksets : Nat → Nat → Option (List Nat))
    (map_info : String → Option (Int × Int × Int))
    (warp_events : Int → List (Int × Int))
    (w : WarpRecord) (block_data : List Nat) (feet_tile_id : Nat)
    (hb : blocksets (lookup_tileset w.tileset_id) w.block_index =
      some block_data)
    (hf : get_feet_tile_id block_data (quadrant_position w.x w.y) =
      some feet_tile_id)
    (hd : feet_tile_id ∈ DOOR_TILE_IDS w.tileset_id ∨
      feet_tile_id ∈ WARP_TILE_IDS w.tileset_id) :
    classify_warp blocksets map_info warp_events w =
      some ⟨WarpType.door, none, none⟩ := by
  have hd' : is_door_or_warp_tile feet_tile_id w.tileset_id = true :=
    (is_door_or_warp_tile_iff feet_tile_id w.tileset_id).mpr hd
  simp only [classify_warp, hb, hf, hd', if_true]

/-- Witness for C1: tileset 0 with feet tile 0x1B (a door tile). -/
def c1_block : List Nat :=
  [0, 0, 0, 0, 0x1B, 0, 0, 0, 0, 0, 0, 0, 0, 0, 0, 0]

/-- Block provider for the C1 witness. -/
def c1_blocksets : Nat → Nat → Option (List Nat) := fun _ _ => some c1_block

/-- Map-info provider for the C1 witness. -/
def c1_map_info : String → Option (Int × Int × Int) := fun _ =>
  some (1, 10, 10)

/-- Warp-events provider for the C1 witness. -/
def c1_warp_events : Int → List (Int × Int) := fun _ => [(0, 0)]

/-- Warp record for the C1 witness. -/
def c1_warp : WarpRecord :=
  ⟨0, 0, "ANY_MAP", 1, 0, 0, 5, 5⟩

/-- Witness for C1. -/
theorem door_precedence_witness :
    classify_warp c1_blocksets c1_map_info c1_warp_events c1_warp =
      some ⟨WarpType.door, none, none⟩ :=
  door_precedence c1_blocksets c1_map_info c1_warp_events c1_warp c1_block
    0x1B rfl rfl (Or.inl (by decide))

/-- C5: a carpet warp (feet tile resolved, not a door/warp tile) whose
destination map is unresolvable, or whose `dest_warp_index` is below 1 or
above the destination's warp count, is always classified with a non-null
direction via the fallback, `method = edge`. -/
theorem carpet_fallback_nonnull
    (blocksets : Nat → Nat → Option (List Nat))
    (map_info : String → Option (Int × Int × Int))
    (warp_events : Int → List (Int × Int))
    (w : WarpRecord) (block_data : List Nat) (feet_tile_id : Nat)
    (hb : blocksets (lookup_tileset w.tileset_id) w.block_index =
      some block_data)
    (hf : get_feet_tile_id block_data (quadrant_position w.x w.y) =
      some feet_tile_id)
    (hd : is_door_or_warp_tile feet_tile_id w.tileset_id = false)
    (hdest : map_info w.dest_map = none ∨
      ∀ dest_map_id dest_mw dest_mh : Int,
        map_info w.dest_map = some (dest_map_id, dest_mw, dest_mh) →
        w.dest_warp_index < 1 ∨
          ((warp_events dest_map_id).length : Int) < w.dest_warp_index) :
    ∃ d : Direction,
      classify_warp blocksets map_info warp_events w =
        some ⟨WarpType.carpet, some d, some DirMethod.edge⟩ := by
  have hp : primary_direction map_info warp_events w.dest_map
      w.dest_warp_index = none := by
    unfold primary_direction
    rcases hmi : map_info w.dest_map with _ | ⟨mid, dmw, dmh⟩
    · rfl
    · rcases hdest with hnone | hrange
      · rw [hmi] at hnone
        exact absurd hnone (by simp)
      · have hr := hrange mid dmw dmh hmi
        have hcond : ¬ (1 ≤ w.dest_warp_index ∧
            w.dest_warp_index ≤ ((warp_events mid).length : Int)) := by omega
        simp only [hcond, if_false]
  refine ⟨infer_carpet_direction_from_edge w.x w.y (w.map_width * 2)
    (w.map_height * 2), ?_⟩
  simp only [classify_warp, hb, hf, hd, hp, Bool.false_eq_true, if_false]

/-- Map-info provider for the C5 witness: no map resolves. -/
def c5_map_info : String → Option (Int × Int × Int) := fun _ => none

/-- Warp-events provider for the C5 witness. -/
def c5_warp_events : Int → List (Int × Int) := fun _ => []

/-- Block provider for the C5 witness. -/
def c5_blocksets : Nat → Nat → Option (List Nat) := fun _ _ => some plain_block

/-- Warp record for the C5 witness: an interior warp with an
unresolvable destination. -/
def c5_warp : WarpRecord :=
  ⟨3, 3, "LAST_MAP", 0, 0, 0, 5, 5⟩

/-- Witness for C5. -/
theorem carpet_fallback_nonnull_witness :
    ∃ d : Direction,
      classify_warp c5_blocksets c5_map_info c5_warp_events c5_warp =
        some ⟨WarpType.carpet, some d, some DirMethod.edge⟩ :=
  carpet_fallback_nonnull c5_blocksets c5_map_info c5_warp_events c5_warp
    plain_block 5 rfl rfl (by decide) (Or.inl rfl)

/-- C6: the quadrant position `(x % 2) + 2*(y % 2)` always hits the
fixed feet table `{0→4, 1→6, 2→12, 3→14}`, the resolver returns the tile
at that index when it is below the block length and fails with `none`
otherwise, and a failed resolution makes the warp be skipped (classified
as `none`). -/
theorem feet_tile_resolution :
    (feet_indices 0 = some 4 ∧ feet_indices 1 = some 6 ∧
      feet_indices 2 = some 12 ∧ feet_indices 3 = some 14) ∧
    (∀ (x y : Int) (block_data : List Nat), ∃ idx : Nat,
      feet_indices (quadrant_position x y) = some idx ∧
      get_feet_tile_id block_data (quadrant_position x y) =
        (if idx < block_data.length then block_data.get? idx else none)) ∧
    (∀ (blocksets : Nat → Nat → Option (List Nat))
        (map_info : String → Option (Int × Int × Int))
        (warp_events : Int → List (Int × Int))
        (w : WarpRecord) (block_data : List Nat),
      blocksets (lookup_tileset w.tileset_id) w.block_index =
        some block_data →
      get_feet_tile_id block_data (quadrant_position w.x w.y) = none →
      classify_warp blocksets map_info warp_events w = none) := by
  refine ⟨⟨rfl, rfl, rfl, rfl⟩, ?_, ?_⟩
  · intro x y block_data
    have hq : quadrant_position x y = 0 ∨ quadrant_position x y = 1 ∨
        quadrant_position x y = 2 ∨ quadrant_position x y = 3 := by
      unfold quadrant_position
      omega
    rcases hq with h | h | h | h <;> rw [h]
    · exact ⟨4, rfl, rfl⟩
    · exact ⟨6, rfl, rfl⟩
    · exact ⟨12, rfl, rfl⟩
    · exact ⟨14, rfl, rfl⟩
  · intro blocksets map_info warp_events w block_data hb hf
    simp only [classify_warp, hb, hf]

/-- Block provider for the C6 witness: a truncated block of length 3. -/
def c6_blocksets : Nat → Nat → Option (List Nat) := fun _ _ => some [9, 9, 9]

/-- Map-info provider for the C6 witness. -/
def c6_map_info : String → Option (Int × Int × Int) := fun _ => none

/-- Warp-events provider for the C6 witness. -/
def c6_warp_events : Int → List (Int × Int) := fun _ => []

/-- Warp record for the C6 witness. -/
def c6_warp : WarpRecord :=
  ⟨0, 0, "ANY_MAP", 1, 0, 0, 5, 5⟩

/-- Witness for C6: a feet index beyond the block length makes the warp
be skipped. -/
theorem feet_tile_resolution_witness :
    classify_warp c6_blocksets c6_map_info c6_warp_events c6_warp = none :=
  feet_tile_resolution.2.2 c6_blocksets c6_map_info c6_warp_events c6_warp
    [9, 9, 9] rfl rfl

/-- C7: the blockset lookup uses the remapped tileset id (`TILESET_REMAP`
where present, identity otherwise) while the door/warp-tile membership
test uses the warp's original tileset id: the classification depends on
the block provider only at the remapped key, and the door/carpet outcome
is exactly `is_door_or_warp_tile` at the original tileset id. -/
theorem remap_block_lookup_only :
    (lookup_tileset 5 = 7 ∧ lookup_tileset 2 = 6 ∧ lookup_tileset 10 = 12 ∧
      lookup_tileset 9 = 12 ∧ lookup_tileset 4 = 1) ∧
    (∀ t : Nat, t ≠ 5 → t ≠ 2 → t ≠ 10 → t ≠ 9 → t ≠ 4 →
      lookup_tileset t = t) ∧
    (∀ (b1 b2 : Nat → Nat → Option (List Nat))
        (map_info : String → Option (Int × Int × Int))
        (warp_events : Int → List (Int × Int)) (w : WarpRecord),
      b1 (lookup_tileset w.tileset_id) w.block_index =
        b2 (lookup_tileset w.tileset_id) w.block_index →
      classify_warp b1 map_info warp_events w =
        classify_warp b2 map_info warp_events w) ∧
    (∀ (blocksets : Nat → Nat → Option (List Nat))
        (map_info : String → Option (Int × Int × Int))
        (warp_events : Int → List (Int × Int))
        (w : WarpRecord) (block_data : List Nat) (feet_tile_id : Nat),
      blocksets (lookup_tileset w.tileset_id) w.block_index =
        some block_data →
      get_feet_tile_id block_data (quadrant_position w.x w.y) =
        some feet_tile_id →
      Option.map (fun r => r.warp_type)
          (classify_warp blocksets map_info warp_events w) =
        some (if is_door_or_warp_tile feet_tile_id w.tileset_id then
          WarpType.door else WarpType.carpet)) := by
  refine ⟨by decide, ?_, ?_, ?_⟩
  · intro t h5 h2 h10 h9 h4
    rcases Nat.lt_or_ge t 11 with hlt | hge
    · interval_cases t <;> simp_all [lookup_tileset, TILESET_REMAP]
    · obtain ⟨n, rfl⟩ : ∃ n, t = n + 11 := ⟨t - 11, by omega⟩
      rfl
  · intro b1 b2 map_info warp_events w hagree
    simp only [classify_warp, hagree]
  · intro blocksets map_info warp_events w block_data feet_tile_id hb hf
    simp only [classify_warp, hb, hf]
    by_cases hd : is_door_or_warp_tile feet_tile_id w.tileset_id = true
    · simp [hd]
    · cases hp : primary_direction map_info warp_events w.dest_map
          w.dest_warp_index <;>
        simp [hd, hp]

/-- Block provider for the C7 witness: block data only under the
remapped tileset id 7. -/
def c7_b1 : Nat → Nat → Option (List Nat) := fun t _ =>
  if t = 7 then some plain_block else none

/-- Second block provider for the C7 witness: block data everywhere. -/
def c7_b2 : Nat → Nat → Option (List Nat) := fun _ _ => some plain_block

/-- Map-info provider for the C7 witness. -/
def c7_map_info : String → Option (Int × Int × Int) := fun _ => none

/-- Warp-events provider for the C7 witness. -/
def c7_warp_events : Int → List (Int × Int) := fun _ => []

/-- Warp record for the C7 witness: tileset 5 (DOJO), remapped to 7. -/
def c7_warp : WarpRecord :=
  ⟨1, 1, "ANY_MAP", 1, 5, 0, 5, 5⟩

/-- Witness for C7: the two providers agree at the remapped key, so the
classifications coincide. -/
theorem remap_block_lookup_only_witness :
    classify_warp c7_b1 c7_map_info c7_warp_events c7_warp =
      classify_warp c7_b2 c7_map_info c7_warp_events c7_warp :=
  remap_block_lookup_only.2.2.1 c7_b1 c7_b2 c7_map_info c7_warp_events
    c7_warp rfl

/-- C8: every tileset's door-tile list is contained in its warp-tile
list, so `is_door_or_warp_tile` holds exactly on warp-tile membership
alone. -/
theorem door_tiles_subset_warp_tiles :
    (∀ t id : Nat, id ∈ DOOR_TILE_IDS t → id ∈ WARP_TILE_IDS t) ∧
    (∀ ft t : Nat,
      (is_door_or_warp_tile ft t = true ↔ ft ∈ WARP_TILE_IDS t)) := by
  have hsub : ∀ t id : Nat, id ∈ DOOR_TILE_IDS t → id ∈ WARP_TILE_IDS t := by
    intro t id h
    rcases Nat.lt_or_ge t 24 with hlt | hge
    · interval_cases t <;> simp_all [DOOR_TILE_IDS, WARP_TILE_IDS] <;> omega
    · obtain ⟨n, rfl⟩ : ∃ n, t = n + 24 := ⟨t - 24, by omega⟩
      simp [DOOR_TILE_IDS] at h
  refine ⟨hsub, ?_⟩
  intro ft t
  unfold is_door_or_warp_tile
  split_ifs with h1 h2
  · simp [hsub t ft h1]
  · simp [h2]
  · simp [h1, h2]

/-- Witness for C8: tile 0x1B of tileset 0 is a door tile, hence a warp
tile, and the classification agrees with warp-tile membership. -/
theorem door_tiles_subset_warp_tiles_witness :
    0x1B ∈ WARP_TILE_IDS 0 ∧
    (is_door_or_warp_tile 0x1B 0 = true ↔ 0x1B ∈ WARP_TILE_IDS 0) :=
  ⟨door_tiles_subset_warp_tiles.1 0 0x1B (by decide),
    door_tiles_subset_warp_tiles.2 0x1B 0⟩

/-- C9: on a 16-cell block and a quadrant position in {0, 1, 2, 3}, the
feet index is one of {4, 6, 12, 14}, strictly below 16, and the resolver
always returns the tile at that index — the out-of-range branch is
unreachable. -/
theorem feet_index_always_in_range (block_data : List Nat) (p : Int)
    (hlen : block_data.length = 16)
    (hp : p = 0 ∨ p = 1 ∨ p = 2 ∨ p = 3) :
    ∃ idx : Nat, feet_indices p = some idx ∧
      (idx = 4 ∨ idx = 6 ∨ idx = 12 ∨ idx = 14) ∧ idx < 16 ∧
      ∃ tile : Nat, block_data.get? idx = some tile ∧
        get_feet_tile_id block_data p = some tile := by
  have hget : ∀ idx : Nat, idx < 16 →
      ∃ tile : Nat, block_data.get? idx = some tile := by
    intro idx hidx
    have hi : idx < block_data.length := by omega
    exact ⟨block_data.get ⟨idx, hi⟩, List.get?_eq_get hi⟩
  rcases hp with rfl | rfl | rfl | rfl
  · obtain ⟨tile, ht⟩ := hget 4 (by omega)
    refine ⟨4, rfl, by decide, by decide, tile, ht, ?_⟩
    simp only [get_feet_tile_id, feet_indices]
    rw [if_pos (by omega : 4 < block_data.length)]
    exact ht
  · obtain ⟨tile, ht⟩ := hget 6 (by omega)
    refine ⟨6, rfl, by decide, by decide, tile, ht, ?_⟩
    simp only [get_feet_tile_id, feet_indices]
    rw [if_pos (by omega : 6 < block_data.length)]
    exact ht
  · obtain ⟨tile, ht⟩ := hget 12 (by omega)
    refine ⟨12, rfl, by decide, by decide, tile, ht, ?_⟩
    simp only [get_feet_tile_id, feet_indices]
    rw [if_pos (by omega : 12 < block_data.length)]
    exact ht
  · obtain ⟨tile, ht⟩ := hget 14 (by omega)
    refine ⟨14, rfl, by decide, by decide, tile, ht, ?_⟩
    simp only [get_feet_tile_id, feet_indices]
    rw [if_pos (by omega : 14 < block_data.length)]
    exact ht

/-- Witness for C9: the all-fives 16-cell block at position 2. -/
theorem feet_index_always_in_range_witness :
    (List.length plain_block = 16 ∧
      ((2 : Int) = 0 ∨ (2 : Int) = 1 ∨ (2 : Int) = 2 ∨ (2 : Int) = 3)) ∧
    ∃ idx : Nat, feet_indices 2 = some idx ∧
      (idx = 4 ∨ idx = 6 ∨ idx = 12 ∨ idx = 14) ∧ idx < 16 ∧
      ∃ tile : Nat, plain_block.get? idx = some tile ∧
        get_feet_tile_id plain_block 2 = some tile :=
  ⟨⟨by decide, by decide⟩,
    feet_index_always_in_range plain_block 2 (by decide) (by decide)⟩

end ClassifyWarps
